import Mathlib

/-!
Verification of the audio-feature analytics engine of a music-catalogue
tool server (`spotify_tools.py`).  The external catalogue service is
modelled as an environment of oracle calls, each of which either returns
a value or raises (`Except.error`); every entry point is embedded as a
Lean function over that environment, following the Python control flow.
Rational numbers stand for the floating-point feature values, and
display-only formatting (emoji prefixes, two-decimal float rendering)
is elided where no claim depends on it.
-/

namespace SpotifyTools

/-- An audio-feature vector (`audio_features` payload), restricted to the
eight dimensions the analytics code reads. -/
structure Features where
  danceability : ℚ
  energy : ℚ
  valence : ℚ
  tempo : ℚ
  acousticness : ℚ
  instrumentalness : ℚ
  speechiness : ℚ
  liveness : ℚ
deriving DecidableEq, Inhabited

/-- A track summary: identifier, display name, artist names. -/
structure Track where
  id : String
  name : String
  artists : List String
deriving DecidableEq, Inhabited

/-- The eight feature keys iterated by `find_similar_tracks`
(`feature_keys` in the source). -/
inductive FeatKey
  | danceability | energy | valence | tempo
  | acousticness | instrumentalness | speechiness | liveness
deriving DecidableEq

/-- Field projection keyed by feature name (`features[key]`). -/
def FeatKey.get (f : Features) : FeatKey → ℚ
  | .danceability => f.danceability
  | .energy => f.energy
  | .valence => f.valence
  | .tempo => f.tempo
  | .acousticness => f.acousticness
  | .instrumentalness => f.instrumentalness
  | .speechiness => f.speechiness
  | .liveness => f.liveness

/-- The fixed weight table (`weights` dict in `find_similar_tracks`). -/
def FeatKey.weight : FeatKey → ℚ
  | .danceability => 3/2
  | .energy => 3/2
  | .valence => 6/5
  | .tempo => 4/5
  | .acousticness => 1
  | .instrumentalness => 1
  | .speechiness => 1
  | .liveness => 4/5

/-- `feature_keys` list, in source order. -/
def feature_keys : List FeatKey :=
  [.danceability, .energy, .valence, .tempo,
   .acousticness, .instrumentalness, .speechiness, .liveness]

/-- The similarity-score loop of `find_similar_tracks`: accumulate
`score += diff * weights[key]` and `total_weight += weights[key]` over
`feature_keys` (tempo difference divided by 200), then divide. -/
def simScore (ref c : Features) : ℚ :=
  let step := fun (acc : ℚ × ℚ) (key : FeatKey) =>
    let diff := if key = .tempo
      then |FeatKey.get ref key - FeatKey.get c key| / 200
      else |FeatKey.get ref key - FeatKey.get c key|
    (acc.1 + diff * key.weight, acc.2 + key.weight)
  let sw := feature_keys.foldl step (0, 0)
  sw.1 / sw.2

/-- Modelled from the spec's words, for comparison with `simScore`: the
weighted mean absolute difference with weight table
danceability 1.5, energy 1.5, valence 1.2, tempo 0.8, acousticness 1.0,
instrumentalness 1.0, speechiness 1.0, liveness 0.8, the tempo term being
the BPM difference divided by 200. -/
def specScore (r c : Features) : ℚ :=
  ((3/2) * |r.danceability - c.danceability| + (3/2) * |r.energy - c.energy|
    + (6/5) * |r.valence - c.valence| + (4/5) * (|r.tempo - c.tempo| / 200)
    + 1 * |r.acousticness - c.acousticness|
    + 1 * |r.instrumentalness - c.instrumentalness|
    + 1 * |r.speechiness - c.speechiness| + (4/5) * |r.liveness - c.liveness|)
  / (3/2 + 3/2 + 6/5 + 4/5 + 1 + 1 + 1 + 4/5)

/-- The input ranges assumed by the bound part of claim C1: every
non-tempo dimension of both vectors in [0,1], tempo difference at
most 200 in absolute value. -/
def inClaimRanges (r c : Features) : Prop :=
  0 ≤ r.danceability ∧ r.danceability ≤ 1 ∧ 0 ≤ c.danceability ∧ c.danceability ≤ 1 ∧
  0 ≤ r.energy ∧ r.energy ≤ 1 ∧ 0 ≤ c.energy ∧ c.energy ≤ 1 ∧
  0 ≤ r.valence ∧ r.valence ≤ 1 ∧ 0 ≤ c.valence ∧ c.valence ≤ 1 ∧
  0 ≤ r.acousticness ∧ r.acousticness ≤ 1 ∧ 0 ≤ c.acousticness ∧ c.acousticness ≤ 1 ∧
  0 ≤ r.instrumentalness ∧ r.instrumentalness ≤ 1 ∧ 0 ≤ c.instrumentalness ∧ c.instrumentalness ≤ 1 ∧
  0 ≤ r.speechiness ∧ r.speechiness ≤ 1 ∧ 0 ≤ c.speechiness ∧ c.speechiness ≤ 1 ∧
  0 ≤ r.liveness ∧ r.liveness ≤ 1 ∧ 0 ≤ c.liveness ∧ c.liveness ≤ 1 ∧
  |r.tempo - c.tempo| ≤ 200

/-- C1: the similarity score computed by `find_similar_tracks` equals the
weighted mean absolute difference described by the spec (fixed weight
table, tempo difference divided by 200, sum of weighted differences over
the sum of weights), and whenever every non-tempo dimension of both
vectors lies in [0,1] and the tempo difference is at most 200, the score
lies in [0,1]. -/
theorem find_similar_score_is_weighted_mean (r c : Features) :
    simScore r c = specScore r c ∧
    (inClaimRanges r c → 0 ≤ simScore r c ∧ simScore r c ≤ 1) := by
  have deq : simScore r c = specScore r c := by
    simp only [simScore, feature_keys, FeatKey.weight, FeatKey.get, List.foldl,
      specScore, reduceCtorEq, if_false, if_true, reduceIte]
    ring_nf
  refine ⟨deq, fun h => ?_⟩
  obtain ⟨h1, h2, h3, h4, h5, h6, h7, h8, h9, h10, h11, h12, h13, h14, h15, h16,
    h17, h18, h19, h20, h21, h22, h23, h24, h25, h26, h27, h28, h29⟩ := h
  refine ⟨?_, ?_⟩ <;> rw [deq]
  · have := abs_nonneg (r.danceability - c.danceability)
    have := abs_nonneg (r.energy - c.energy)
    have := abs_nonneg (r.valence - c.valence)
    have := abs_nonneg (r.tempo - c.tempo)
    have := abs_nonneg (r.acousticness - c.acousticness)
    have := abs_nonneg (r.instrumentalness - c.instrumentalness)
    have := abs_nonneg (r.speechiness - c.speechiness)
    have := abs_nonneg (r.liveness - c.liveness)
    unfold specScore
    positivity
  · have b1 : |r.danceability - c.danceability| ≤ 1 := abs_sub_le_iff.mpr ⟨by linarith, by linarith⟩
    have b2 : |r.energy - c.energy| ≤ 1 := abs_sub_le_iff.mpr ⟨by linarith, by linarith⟩
    have b3 : |r.valence - c.valence| ≤ 1 := abs_sub_le_iff.mpr ⟨by linarith, by linarith⟩
    have b4 : |r.acousticness - c.acousticness| ≤ 1 := abs_sub_le_iff.mpr ⟨by linarith, by linarith⟩
    have b5 : |r.instrumentalness - c.instrumentalness| ≤ 1 := abs_sub_le_iff.mpr ⟨by linarith, by linarith⟩
    have b6 : |r.speechiness - c.speechiness| ≤ 1 := abs_sub_le_iff.mpr ⟨by linarith, by linarith⟩
    have b7 : |r.liveness - c.liveness| ≤ 1 := abs_sub_le_iff.mpr ⟨by linarith, by linarith⟩
    have b8 : |r.tempo - c.tempo| / 200 ≤ 1 := by
      rw [div_le_one (by norm_num)]; exact h29
    have n1 := abs_nonneg (r.danceability - c.danceability)
    unfold specScore
    rw [div_le_one (by norm_num)]
    linarith

/-- Witness for C1 at concrete vectors. -/
theorem find_similar_score_is_weighted_mean_witness :
    inClaimRanges ⟨1/2, 1/2, 1/2, 120, 0, 0, 0, 0⟩ ⟨1, 0, 1/2, 100, 0, 0, 0, 0⟩ ∧
    (simScore ⟨1/2, 1/2, 1/2, 120, 0, 0, 0, 0⟩ ⟨1, 0, 1/2, 100, 0, 0, 0, 0⟩
      = specScore ⟨1/2, 1/2, 1/2, 120, 0, 0, 0, 0⟩ ⟨1, 0, 1/2, 100, 0, 0, 0, 0⟩ ∧
     0 ≤ simScore ⟨1/2, 1/2, 1/2, 120, 0, 0, 0, 0⟩ ⟨1, 0, 1/2, 100, 0, 0, 0, 0⟩ ∧
     simScore ⟨1/2, 1/2, 1/2, 120, 0, 0, 0, 0⟩ ⟨1, 0, 1/2, 100, 0, 0, 0, 0⟩ ≤ 1) := by
  have hr : inClaimRanges ⟨1/2, 1/2, 1/2, 120, 0, 0, 0, 0⟩ ⟨1, 0, 1/2, 100, 0, 0, 0, 0⟩ := by
    unfold inClaimRanges
    norm_num
  exact ⟨hr, (find_similar_score_is_weighted_mean _ _).1,
    (find_similar_score_is_weighted_mean _ _).2 hr⟩

/-- Identifier cleaning (`if track_id.startswith("spotify:track:"):
clean_id = track_id.split(":")[-1]`). -/
def cleanTrackId (track_id : String) : String :=
  if "spotify:track:".isPrefixOf track_id
  then (track_id.splitOn ":").getLastD track_id
  else track_id

/-- The keyword arguments assembled by `get_track_recommendations` and
forwarded to `sp.recommendations` (`kwargs` in the source); a `none`
field models an absent key. -/
structure RecKwargs where
  limit : Int
  seed_tracks : Option (List String)
  seed_artists : Option (List String)
  seed_genres : Option (List String)
  target_danceability : Option ℚ
  target_energy : Option ℚ
  target_valence : Option ℚ
  target_tempo : Option ℚ
deriving DecidableEq

/-- The external catalogue service and the client constructor
(`get_spotify_client` and the `sp.*` calls): each call either returns a
value or raises, modelled by `Except`.  Request limits that the code
passes (e.g. `playlist_tracks(..., limit=20)`) appear as arguments so the
branches that differ in them stay distinguishable. -/
structure Env where
  client : Except String Unit
  audio_features : List String → Except String (List (Option Features))
  track : String → Except String Track
  saved_tracks : Except String (List Track)
  user_playlists : Except String (List String)
  playlist_tracks : String → Nat → Except String (List (Option Track))
  recommendations : RecKwargs → Except String (List Track)

/-- Python truthiness of an optional list argument (`if seed_track_ids:`):
`None` and `[]` are both falsy. -/
def truthy : Option (List String) → Option (List String)
  | some l => if l.isEmpty then none else some l
  | none => none

/-- The Python parameters of `get_track_recommendations`. -/
structure RecArgs where
  seed_track_ids : Option (List String)
  seed_artists : Option (List String)
  seed_genres : Option (List String)
  target_danceability : Option ℚ
  target_energy : Option ℚ
  target_valence : Option ℚ
  target_tempo : Option ℚ
  limit : Int

/-- Assembly of `kwargs` in `get_track_recommendations`:
`{"limit": min(limit, 100)}`, seed lists added when truthy (first five
entries, track ids cleaned), targets added when not `None`. -/
def buildKwargs (a : RecArgs) : RecKwargs where
  limit := min a.limit 100
  seed_tracks := (truthy a.seed_track_ids).map (fun l => (l.take 5).map cleanTrackId)
  seed_artists := (truthy a.seed_artists).map (fun l => l.take 5)
  seed_genres := (truthy a.seed_genres).map (fun l => l.take 5)
  target_danceability := a.target_danceability
  target_energy := a.target_energy
  target_valence := a.target_valence
  target_tempo := a.target_tempo

/-- `any(key.startswith("seed_") for key in kwargs.keys())`: only the
three seed keys can start with `seed_`. -/
def RecKwargs.hasSeeds (k : RecKwargs) : Bool :=
  k.seed_tracks.isSome || k.seed_artists.isSome || k.seed_genres.isSome

/-- `", ".join(artist["name"] for artist in ...)`. -/
def joinArtists (artists : List String) : String :=
  String.intercalate ", " artists

/-- Display-only result formatting for recommendations (emoji and float
rendering elided; no claim depends on this text). -/
def formatRecs (tracks : List Track) : String :=
  String.intercalate "\n"
    (tracks.map (fun t => t.name ++ " by " ++ joinArtists t.artists ++ " [ID: " ++ t.id ++ "]"))

/-- `get_track_recommendations`, with a trace of the external fetch calls
performed (second component).  The client is constructed before the
`try` block, so a failure there escapes as `Except.error`; everything
raised inside the body is caught and turned into an error string. -/
def get_track_recommendations (env : Env) (a : RecArgs) :
    Except String String × List String :=
  match env.client with
  | .error e => (.error e, [])
  | .ok _ =>
    let kwargs := buildKwargs a
    if !kwargs.hasSeeds then
      (.ok "At least one seed (track, artist, or genre) is required.", [])
    else
      match env.recommendations kwargs with
      | .error e => (.ok ("Error getting recommendations: " ++ e), ["recommendations"])
      | .ok tracks =>
        if tracks.isEmpty then
          (.ok "No recommendations found with the given parameters.", ["recommendations"])
        else
          match env.audio_features (tracks.map Track.id) with
          | .error e =>
            (.ok ("Error getting recommendations: " ++ e), ["recommendations", "audio_features"])
          | .ok _ =>
            (.ok (formatRecs tracks), ["recommendations", "audio_features"])

/-- One step of the inner `for item in tracks["items"]` loop of the
`source == "playlists"` branch: a null track payload is skipped, a
present one is appended only while `track_count < 100`. -/
def playlistItemStep (p : List Track × ℕ) (item : Option Track) : List Track × ℕ :=
  match item with
  | some t => if p.2 < 100 then (p.1 ++ [t], p.2 + 1) else p
  | none => p

/-- The pure collection logic of the `source == "playlists"` branch,
over the per-playlist item lists the service returned: the outer loop
breaks once `track_count >= 100` (modelled by skipping the remaining
playlists, which change nothing), the inner loop runs `playlistItemStep`. -/
def collectPlaylistTracks (plss : List (List (Option Track))) : List Track :=
  (plss.foldl
    (fun st pl => if st.2 ≥ 100 then st else pl.foldl playlistItemStep st)
    ([], 0)).1

/-- The outer `for playlist in playlists["items"]` loop of the
`source == "playlists"` branch: once the cap is reached the `break`
prevents any further fetch (modelled by skipping the remaining
playlists, which change nothing); otherwise the playlist's tracks are
fetched (limit 20, a raising fetch propagates) and folded in. -/
def collectFromPlaylistsLoop (env : Env) :
    List String → List Track × ℕ → Except String (List Track × ℕ)
  | [], st => .ok st
  | pid :: rest, st =>
    if st.2 ≥ 100 then collectFromPlaylistsLoop env rest st
    else
      match env.playlist_tracks pid 20 with
      | .error e => .error e
      | .ok items => collectFromPlaylistsLoop env rest (items.foldl playlistItemStep st)

/-- The `source == "playlists"` branch as executed: enumerate up to 10
playlists and run the capped accumulation loop. -/
def collectFromPlaylists (env : Env) : Except String (List Track) :=
  match env.user_playlists with
  | .error e => .error e
  | .ok pids =>
    match collectFromPlaylistsLoop env pids ([], 0) with
    | .error e => .error e
    | .ok st => .ok st.1

/-- Candidate collection of `find_similar_tracks`: liked songs (single
page), aggregated playlists, or an explicit playlist id with limit 50
(null payloads skipped). -/
def collectCandidatesSim (env : Env) (source : String) : Except String (List Track) :=
  if source = "liked" then env.saved_tracks
  else if source = "playlists" then collectFromPlaylists env
  else
    match env.playlist_tracks source 50 with
    | .error e => .error e
    | .ok items => .ok (items.filterMap id)

/-- Candidate collection of `filter_tracks_by_features`: same as for the
similarity search except an explicit playlist id is fetched with
limit 100. -/
def collectCandidatesFilter (env : Env) (source : String) : Except String (List Track) :=
  if source = "liked" then env.saved_tracks
  else if source = "playlists" then collectFromPlaylists env
  else
    match env.playlist_tracks source 100 with
    | .error e => .error e
    | .ok items => .ok (items.filterMap id)

/-- Ascending order on the similarity score
(`similar_tracks.sort(key=lambda x: x[0])`). -/
def scoreLE (a b : ℚ × Track) : Prop := a.1 ≤ b.1

instance : DecidableRel scoreLE := fun a b => inferInstanceAs (Decidable (a.1 ≤ b.1))

/-- The scoring loop of `find_similar_tracks`
(`for i, features in enumerate(candidate_features)`): a null feature
vector is skipped; a score within the threshold appends a pair built
from `candidate_tracks[i]` — note that `i` indexes the feature list of
the FILTERED id list while `candidate_tracks` is the unfiltered pool,
exactly as the source does. -/
def similarLoop (candidate_tracks : List Track) (candidate_features : List (Option Features))
    (ref_features : Features) (thr : ℚ) : List (ℚ × Track) :=
  candidate_features.enum.filterMap (fun iof =>
    match iof.2 with
    | some features =>
      let score := simScore ref_features features
      if score ≤ thr then (candidate_tracks.get? iof.1).map (fun t => (score, t)) else none
    | none => none)

/-- `"No other tracks to compare against."` -/
def noOtherMsg : String := "No other tracks to compare against."

/-- Display-only formatting of the similar-track list. -/
def formatSimilar (ref : Track) (l : List (ℚ × Track)) : String :=
  "Tracks similar to " ++ ref.name ++ " by " ++ joinArtists ref.artists ++ ":\n\n"
    ++ String.intercalate "\n"
        (l.map (fun p => p.2.name ++ " by " ++ joinArtists p.2.artists ++ " [ID: " ++ p.2.id ++ "]"))

/-- The `try` body of `find_similar_tracks` (a raising external call
propagates out of the body as `Except.error`). -/
def findSimilarBody (env : Env) (track_id source : String) (thr : ℚ) :
    Except String String :=
  let clean_id := cleanTrackId track_id
  match env.audio_features [clean_id] with
  | .error e => .error e
  | .ok refL =>
    match refL.getD 0 none with
    | none => .ok ("Could not get features for reference track " ++ track_id ++ ".")
    | some ref_features =>
      match env.track clean_id with
      | .error e => .error e
      | .ok ref_track =>
        match collectCandidatesSim env source with
        | .error e => .error e
        | .ok candidate_tracks =>
          if candidate_tracks.isEmpty then
            .ok ("No tracks found in source \x27" ++ source ++ "\x27.")
          else
            let candidate_ids :=
              (candidate_tracks.filter (fun t => t.id ≠ clean_id)).map Track.id
            if candidate_ids.isEmpty then
              .ok noOtherMsg
            else
              match env.audio_features candidate_ids with
              | .error e => .error e
              | .ok candidate_features =>
                let similar_tracks :=
                  (similarLoop candidate_tracks candidate_features ref_features
                    thr).insertionSort scoreLE
                if similar_tracks.isEmpty then
                  .ok ("No similar tracks found to \x27" ++ ref_track.name ++ "\x27 by "
                    ++ joinArtists ref_track.artists ++ " within similarity threshold "
                    ++ toString thr ++ ".")
                else
                  .ok (formatSimilar ref_track (similar_tracks.take 10))

/-- `find_similar_tracks`: the client is constructed before the `try`
block; inside it every exception is converted to an error string. -/
def find_similar_tracks (env : Env) (track_id source : String) (thr : ℚ) :
    Except String String :=
  match env.client with
  | .error e => .error e
  | .ok _ =>
    .ok (match findSimilarBody env track_id source thr with
      | .ok s => s
      | .error e => "Error finding similar tracks: " ++ e)

/-- The ten optional bounds of `filter_tracks_by_features`. -/
structure Criteria where
  min_danceability : Option ℚ := none
  max_danceability : Option ℚ := none
  min_energy : Option ℚ := none
  max_energy : Option ℚ := none
  min_valence : Option ℚ := none
  max_valence : Option ℚ := none
  min_tempo : Option ℚ := none
  max_tempo : Option ℚ := none
  min_acousticness : Option ℚ := none
  max_acousticness : Option ℚ := none
deriving DecidableEq

/-- `min_x is not None and features[x] < min_x` (the `continue` guard). -/
def belowMin (bound : Option ℚ) (v : ℚ) : Bool :=
  match bound with
  | some m => decide (v < m)
  | none => false

/-- `max_x is not None and features[x] > max_x` (the `continue` guard). -/
def aboveMax (bound : Option ℚ) (v : ℚ) : Bool :=
  match bound with
  | some m => decide (m < v)
  | none => false

/-- A feature vector passes the guard chain of
`filter_tracks_by_features` iff no `continue` fires. -/
def passesFilter (cr : Criteria) (f : Features) : Bool :=
  !belowMin cr.min_danceability f.danceability && !aboveMax cr.max_danceability f.danceability &&
  !belowMin cr.min_energy f.energy && !aboveMax cr.max_energy f.energy &&
  !belowMin cr.min_valence f.valence && !aboveMax cr.max_valence f.valence &&
  !belowMin cr.min_tempo f.tempo && !aboveMax cr.max_tempo f.tempo &&
  !belowMin cr.min_acousticness f.acousticness && !aboveMax cr.max_acousticness f.acousticness

/-- A candidate survives the loop iff its feature vector is present
(`if not features: continue`) and the guard chain passes. -/
def survives (cr : Criteria) : Option Features → Bool
  | none => false
  | some f => passesFilter cr f

/-- The filtering loop (`for i, features in enumerate(features_list)`);
here the feature list is aligned with the full candidate pool. -/
def filteredTracks (candidate_tracks : List Track) (features_list : List (Option Features))
    (cr : Criteria) : List (Track × Features) :=
  features_list.enum.filterMap (fun iof =>
    match iof.2 with
    | some features =>
      if passesFilter cr features
      then (candidate_tracks.get? iof.1).map (fun t => (t, features))
      else none
    | none => none)

/-- Descending order on danceability
(`filtered_tracks.sort(key=lambda x: x[3]["danceability"], reverse=True)`). -/
def danceGE (a b : Track × Features) : Prop :=
  b.2.danceability ≤ a.2.danceability

instance : DecidableRel danceGE :=
  fun a b => inferInstanceAs (Decidable (b.2.danceability ≤ a.2.danceability))

/-- Python's stable `list.sort(key=..., reverse=True)`: a stable sort
placing strictly larger danceability first and keeping ties in their
original order, embedded as an insertion sort. -/
def sortByDanceDesc (l : List (Track × Features)) : List (Track × Features) :=
  l.insertionSort danceGE

/-- Sort descending by danceability, then `[:limit]`. -/
def rankTracks (l : List (Track × Features)) (limit : ℕ) : List (Track × Features) :=
  (sortByDanceDesc l).take limit

/-- The Python default of the `limit` parameter of
`filter_tracks_by_features`. -/
def filterLimitDefault : ℕ := 20

/-- Display-only formatting of the filtered tracks. -/
def formatFiltered (l : List (Track × Features)) : String :=
  "Tracks matching criteria:\n\n"
    ++ String.intercalate "\n"
        (l.map (fun p => p.1.name ++ " by " ++ joinArtists p.1.artists ++ " [ID: " ++ p.1.id ++ "]"))

/-- The `try` body of `filter_tracks_by_features`. -/
def filterBody (env : Env) (source : String) (cr : Criteria) (limit : ℕ) :
    Except String String :=
  match collectCandidatesFilter env source with
  | .error e => .error e
  | .ok candidate_tracks =>
    if candidate_tracks.isEmpty then
      .ok ("No tracks found in source \x27" ++ source ++ "\x27.")
    else
      match env.audio_features (candidate_tracks.map Track.id) with
      | .error e => .error e
      | .ok features_list =>
        let filtered := filteredTracks candidate_tracks features_list cr
        if filtered.isEmpty then
          .ok "No tracks match the specified criteria."
        else
          .ok (formatFiltered (rankTracks filtered limit))

/-- `filter_tracks_by_features`: client before `try`, catch-all inside. -/
def filter_tracks_by_features (env : Env) (source : String) (cr : Criteria) (limit : ℕ) :
    Except String String :=
  match env.client with
  | .error e => .error e
  | .ok _ =>
    .ok (match filterBody env source cr limit with
      | .ok s => s
      | .error e => "Error filtering tracks: " ++ e)

/-- The qualitative insight tags of `analyze_track`, in the order the
source can append them. -/
inductive Tag
  | danceWorkout | dance | highEnergy
  | positive | melancholic
  | acoustic | instrumental | liveFeel | speechLike
deriving DecidableEq

/-- The insight text of each tag (emoji elided). -/
def tagText : Tag → String
  | .danceWorkout => "Perfect for dancing and workouts!"
  | .dance => "Great for dancing!"
  | .highEnergy => "High energy track!"
  | .positive => "Very positive and uplifting!"
  | .melancholic => "Melancholic or somber mood"
  | .acoustic => "Acoustic/unplugged style"
  | .instrumental => "Mostly instrumental"
  | .liveFeel => "Live recording feel"
  | .speechLike => "Speech-like (rap/spoken word)"

/-- The insight generation of `analyze_track`: the dance/energy group is
an `if`/`elif`/`elif` chain, the mood group an `if`/`elif` chain, the
style checks are independent `if`s. -/
def insightsOf (f : Features) : List Tag :=
  (if f.danceability > 7/10 ∧ f.energy > 7/10 then [Tag.danceWorkout]
   else if f.danceability > 7/10 then [Tag.dance]
   else if f.energy > 8/10 then [Tag.highEnergy]
   else [])
  ++ (if f.valence > 7/10 then [Tag.positive]
      else if f.valence < 3/10 then [Tag.melancholic]
      else [])
  ++ (if f.acousticness > 7/10 then [Tag.acoustic] else [])
  ++ (if f.instrumentalness > 1/2 then [Tag.instrumental] else [])
  ++ (if f.liveness > 3/10 then [Tag.liveFeel] else [])
  ++ (if f.speechiness > 1/2 then [Tag.speechLike] else [])

/-- The five tempo bands of `analyze_track`. -/
def tempoDesc (t : ℚ) : String :=
  if t < 60 then "Very slow ballad"
  else if t < 90 then "Slow/relaxed"
  else if t < 120 then "Moderate pace"
  else if t < 140 then "Upbeat"
  else "Very fast/energetic"

/-- Display-only analysis formatting. -/
def formatAnalysis (t : Track) (f : Features) : String :=
  t.name ++ " by " ++ joinArtists t.artists ++ " (" ++ tempoDesc f.tempo ++ ")"
    ++ (if (insightsOf f).isEmpty then ""
        else "\n\nInsights: " ++ String.intercalate " | " ((insightsOf f).map tagText))

/-- The `try` body of `analyze_track`. -/
def analyzeBody (env : Env) (track_id : String) : Except String String :=
  let clean_id := cleanTrackId track_id
  match env.track clean_id with
  | .error e => .error e
  | .ok track =>
    match env.audio_features [clean_id] with
    | .error e => .error e
    | .ok featsL =>
      match featsL.getD 0 none with
      | none => .ok ("Could not analyze track " ++ track_id ++ ".")
      | some features => .ok (formatAnalysis track features)

/-- `analyze_track`: client before `try`, catch-all inside. -/
def analyze_track (env : Env) (track_id : String) : Except String String :=
  match env.client with
  | .error e => .error e
  | .ok _ =>
    .ok (match analyzeBody env track_id with
      | .ok s => s
      | .error e => "Error analyzing track: " ++ e)

/-- "No seed of any kind": each of the three seed arguments is absent or
empty (Python-falsy). -/
def noSeedsGiven (a : RecArgs) : Prop :=
  truthy a.seed_track_ids = none ∧ truthy a.seed_artists = none ∧ truthy a.seed_genres = none

/-- C3 counterexample: on the vector with danceability 0.8 and
energy 0.9 (which satisfies both the individual dance condition > 0.7
and the high-energy condition > 0.8), only the combined dance/workout
tag fires; the individual dance and high-energy tags are suppressed by
the `elif` chain, so the tags are not additive as claimed. -/
theorem insight_tags_not_additive_counterexample :
    insightsOf ⟨4/5, 9/10, 1/2, 120, 0, 0, 0, 0⟩ = [Tag.danceWorkout] ∧
    (4:ℚ)/5 > 7/10 ∧ (9:ℚ)/10 > 7/10 ∧ (9:ℚ)/10 > 8/10 ∧
    Tag.dance ∉ insightsOf ⟨4/5, 9/10, 1/2, 120, 0, 0, 0, 0⟩ ∧
    Tag.highEnergy ∉ insightsOf ⟨4/5, 9/10, 1/2, 120, 0, 0, 0, 0⟩ := by
  have h : insightsOf ⟨4/5, 9/10, 1/2, 120, 0, 0, 0, 0⟩ = [Tag.danceWorkout] := by
    norm_num [insightsOf]
  refine ⟨h, by norm_num, by norm_num, by norm_num, ?_, ?_⟩ <;> rw [h] <;> simp

/-- C3 amended: when danceability > 0.7 and energy > 0.7 the combined
dance/workout tag fires, and the individual dance and high-energy tags
are suppressed on that vector (the dance/energy group is a mutually
exclusive `if`/`elif` chain); the mood and style tag groups are
unaffected and may still co-occur. -/
theorem insight_dance_energy_tags_exclusive (f : Features)
    (hd : f.danceability > 7/10) (he : f.energy > 7/10) :
    Tag.danceWorkout ∈ insightsOf f ∧
    Tag.dance ∉ insightsOf f ∧ Tag.highEnergy ∉ insightsOf f := by
  unfold insightsOf
  rw [if_pos (⟨hd, he⟩ : f.danceability > 7/10 ∧ f.energy > 7/10)]
  refine ⟨by simp, ?_, ?_⟩ <;>
    · simp only [List.mem_append]
      split_ifs <;> simp

/-- Witness for C3's amended theorem. -/
theorem insight_dance_energy_tags_exclusive_witness :
    ((4:ℚ)/5 > 7/10 ∧ (9:ℚ)/10 > 7/10) ∧
    (Tag.danceWorkout ∈ insightsOf ⟨4/5, 9/10, 0, 120, 0, 0, 0, 0⟩ ∧
     Tag.dance ∉ insightsOf ⟨4/5, 9/10, 0, 120, 0, 0, 0, 0⟩ ∧
     Tag.highEnergy ∉ insightsOf ⟨4/5, 9/10, 0, 120, 0, 0, 0, 0⟩) :=
  ⟨⟨by norm_num, by norm_num⟩,
   insight_dance_energy_tags_exclusive ⟨4/5, 9/10, 0, 120, 0, 0, 0, 0⟩
     (by norm_num) (by norm_num)⟩

/-- C4 counterexample: when constructing the external-service client
raises, the exception escapes every one of the four analytics entry
points unhandled (the `sp = get_spotify_client()` line sits before the
`try` block), so not every failure path resolves to a string. -/
theorem error_policy_counterexample :
    analyze_track
      ⟨.error "boom", fun _ => .ok [], fun _ => .ok ⟨"", "", []⟩, .ok [], .ok [],
        fun _ _ => .ok [], fun _ => .ok []⟩ "t" = .error "boom" ∧
    find_similar_tracks
      ⟨.error "boom", fun _ => .ok [], fun _ => .ok ⟨"", "", []⟩, .ok [], .ok [],
        fun _ _ => .ok [], fun _ => .ok []⟩ "t" "liked" (3/20) = .error "boom" ∧
    filter_tracks_by_features
      ⟨.error "boom", fun _ => .ok [], fun _ => .ok ⟨"", "", []⟩, .ok [], .ok [],
        fun _ _ => .ok [], fun _ => .ok []⟩ "liked" {} 20 = .error "boom" ∧
    (get_track_recommendations
      ⟨.error "boom", fun _ => .ok [], fun _ => .ok ⟨"", "", []⟩, .ok [], .ok [],
        fun _ _ => .ok [], fun _ => .ok []⟩
      ⟨none, none, none, none, none, none, none, 10⟩).1 = .error "boom" :=
  ⟨rfl, rfl, rfl, rfl⟩

/-- C4 amended: once the external-service client has been constructed,
every failure path of the four analytics entry points resolves to a
returned string (each `try` body is wrapped by a catch-all that turns
any raised error into an error string). -/
theorem error_policy_after_client (env : Env) (hc : env.client = .ok ())
    (tid source : String) (thr : ℚ) (cr : Criteria) (lim : ℕ) (a : RecArgs) :
    (∃ s, analyze_track env tid = .ok s) ∧
    (∃ s, find_similar_tracks env tid source thr = .ok s) ∧
    (∃ s, filter_tracks_by_features env source cr lim = .ok s) ∧
    (∃ s, (get_track_recommendations env a).1 = .ok s) := by
  refine ⟨?_, ?_, ?_, ?_⟩
  · unfold analyze_track
    rw [hc]
    exact ⟨_, rfl⟩
  · unfold find_similar_tracks
    rw [hc]
    exact ⟨_, rfl⟩
  · unfold filter_tracks_by_features
    rw [hc]
    exact ⟨_, rfl⟩
  · unfold get_track_recommendations
    rw [hc]
    dsimp only
    split
    · exact ⟨_, rfl⟩
    · split
      · exact ⟨_, rfl⟩
      · split
        · exact ⟨_, rfl⟩
        · split
          · exact ⟨_, rfl⟩
          · exact ⟨_, rfl⟩

/-- Witness for C4's amended theorem. -/
theorem error_policy_after_client_witness :
    (Env.client ⟨.ok (), fun _ => .ok [], fun _ => .ok ⟨"", "", []⟩, .ok [], .ok [],
        fun _ _ => .ok [], fun _ => .ok []⟩ = .ok ()) ∧
    ((∃ s, analyze_track
        ⟨.ok (), fun _ => .ok [], fun _ => .ok ⟨"", "", []⟩, .ok [], .ok [],
          fun _ _ => .ok [], fun _ => .ok []⟩ "t" = .ok s) ∧
     (∃ s, find_similar_tracks
        ⟨.ok (), fun _ => .ok [], fun _ => .ok ⟨"", "", []⟩, .ok [], .ok [],
          fun _ _ => .ok [], fun _ => .ok []⟩ "t" "liked" (3/20) = .ok s) ∧
     (∃ s, filter_tracks_by_features
        ⟨.ok (), fun _ => .ok [], fun _ => .ok ⟨"", "", []⟩, .ok [], .ok [],
          fun _ _ => .ok [], fun _ => .ok []⟩ "liked" {} 20 = .ok s) ∧
     (∃ s, (get_track_recommendations
        ⟨.ok (), fun _ => .ok [], fun _ => .ok ⟨"", "", []⟩, .ok [], .ok [],
          fun _ _ => .ok [], fun _ => .ok []⟩
        ⟨none, none, none, none, none, none, none, 10⟩).1 = .ok s)) :=
  ⟨rfl, error_policy_after_client _ rfl "t" "liked" (3/20) {} 20 _⟩

/-- C5 counterexample: a limit of 0 is forwarded to the recommendation
service unchanged (`min(0, 100) = 0`), so the forwarded size is not
clamped into [1, 100]. -/
theorem rec_limit_no_lower_clamp_counterexample :
    (buildKwargs ⟨none, none, none, none, none, none, none, 0⟩).limit = 0 ∧
    ¬(1 ≤ (buildKwargs ⟨none, none, none, none, none, none, none, 0⟩).limit) := by
  constructor <;> norm_num [buildKwargs]

/-- C5 amended: the result-set size forwarded to the recommendation
service is only capped above at 100: it always is at most 100, it equals
either the caller's limit or 100, and any limit at most 100 (including
0 and negative values) is forwarded unchanged — there is no lower
clamp. -/
theorem rec_limit_capped_above_only (a : RecArgs) :
    (buildKwargs a).limit ≤ 100 ∧
    ((buildKwargs a).limit = a.limit ∨ (buildKwargs a).limit = 100) ∧
    (a.limit ≤ 100 → (buildKwargs a).limit = a.limit) := by
  refine ⟨min_le_right _ _, ?_, fun h => min_eq_left h⟩
  rcases le_total a.limit 100 with h | h
  · exact Or.inl (min_eq_left h)
  · exact Or.inr (min_eq_right h)

/-- Witness for C5's amended theorem: a limit of 7 (at most 100) is
forwarded unchanged. -/
theorem rec_limit_capped_above_only_witness :
    ((7:ℤ) ≤ 100) ∧
    (buildKwargs ⟨none, none, none, none, none, none, none, 7⟩).limit = 7 :=
  ⟨by norm_num,
   (rec_limit_capped_above_only ⟨none, none, none, none, none, none, none, 7⟩).2.2
     (by norm_num)⟩

/-- C9: with no seed of any kind, `get_track_recommendations` returns
the validation message requiring at least one seed as a string (not an
exception) and performs zero external fetch calls. -/
theorem rec_no_seed_validation (env : Env) (a : RecArgs)
    (hc : env.client = .ok ()) (hs : noSeedsGiven a) :
    get_track_recommendations env a
      = (.ok "At least one seed (track, artist, or genre) is required.", []) := by
  obtain ⟨h1, h2, h3⟩ := hs
  unfold get_track_recommendations
  rw [hc]
  have hsf : (buildKwargs a).hasSeeds = false := by
    simp [buildKwargs, RecKwargs.hasSeeds, h1, h2, h3]
  simp [hsf]

/-- Witness for C9. -/
theorem rec_no_seed_validation_witness :
    (Env.client ⟨.ok (), fun _ => .ok [], fun _ => .ok ⟨"", "", []⟩, .ok [], .ok [],
        fun _ _ => .ok [], fun _ => .ok []⟩ = .ok () ∧
     noSeedsGiven ⟨none, none, none, none, none, none, none, 10⟩) ∧
    get_track_recommendations
      ⟨.ok (), fun _ => .ok [], fun _ => .ok ⟨"", "", []⟩, .ok [], .ok [],
        fun _ _ => .ok [], fun _ => .ok []⟩
      ⟨none, none, none, none, none, none, none, 10⟩
      = (.ok "At least one seed (track, artist, or genre) is required.", []) :=
  ⟨⟨rfl, ⟨rfl, rfl, rfl⟩⟩,
   rec_no_seed_validation _ _ rfl ⟨rfl, rfl, rfl⟩⟩

/-- Modelled from the spec's words: every provided bound is satisfied
inclusively; an absent bound imposes no constraint. -/
def specBoundsSat (cr : Criteria) (f : Features) : Prop :=
  (∀ m, cr.min_danceability = some m → m ≤ f.danceability) ∧
  (∀ m, cr.max_danceability = some m → f.danceability ≤ m) ∧
  (∀ m, cr.min_energy = some m → m ≤ f.energy) ∧
  (∀ m, cr.max_energy = some m → f.energy ≤ m) ∧
  (∀ m, cr.min_valence = some m → m ≤ f.valence) ∧
  (∀ m, cr.max_valence = some m → f.valence ≤ m) ∧
  (∀ m, cr.min_tempo = some m → m ≤ f.tempo) ∧
  (∀ m, cr.max_tempo = some m → f.tempo ≤ m) ∧
  (∀ m, cr.min_acousticness = some m → m ≤ f.acousticness) ∧
  (∀ m, cr.max_acousticness = some m → f.acousticness ≤ m)

lemma belowMin_eq_false_iff (bound : Option ℚ) (v : ℚ) :
    belowMin bound v = false ↔ ∀ m, bound = some m → m ≤ v := by
  cases bound <;> simp [belowMin, not_lt]

lemma aboveMax_eq_false_iff (bound : Option ℚ) (v : ℚ) :
    aboveMax bound v = false ↔ ∀ m, bound = some m → v ≤ m := by
  cases bound <;> simp [aboveMax, not_lt]

/-- C7: a candidate survives the guard chain of
`filter_tracks_by_features` iff its feature vector is present and every
provided bound is satisfied inclusively; absent bounds impose no
constraint and a candidate without a feature vector is excluded. -/
theorem filter_survival_iff (cr : Criteria) (of : Option Features) :
    survives cr of = true ↔ ∃ f, of = some f ∧ specBoundsSat cr f := by
  cases of with
  | none => simp [survives]
  | some f =>
    simp only [survives, passesFilter, Bool.and_eq_true, Bool.not_eq_true',
      belowMin_eq_false_iff, aboveMax_eq_false_iff, Option.some.injEq,
      exists_eq_left', specBoundsSat]
    tauto

/-- C10: a non-empty candidate pool whose every track has the cleaned
reference identifier leaves no candidate to score, and
`find_similar_tracks` returns the distinct non-error message
`"No other tracks to compare against."`, which differs from the
empty-source message and from the no-similar-tracks-within-threshold
message whatever is interpolated into them. -/
theorem no_other_tracks_message (env : Env) (track_id source : String) (thr : ℚ)
    (hc : env.client = .ok ())
    (f : Features) (hf : env.audio_features [cleanTrackId track_id] = .ok [some f])
    (t : Track) (ht : env.track (cleanTrackId track_id) = .ok t)
    (pool : List Track) (hp : collectCandidatesSim env source = .ok pool)
    (hne : pool ≠ [])
    (hall : ∀ u ∈ pool, u.id = cleanTrackId track_id) :
    find_similar_tracks env track_id source thr = .ok noOtherMsg ∧
    (∀ s, noOtherMsg ≠ "No tracks found in source \x27" ++ s) ∧
    (∀ s, noOtherMsg ≠ "No similar tracks found to \x27" ++ s) := by
  refine ⟨?_, ?_, ?_⟩
  · unfold find_similar_tracks
    rw [hc]
    have hbody : findSimilarBody env track_id source thr = .ok noOtherMsg := by
      unfold findSimilarBody
      dsimp only
      rw [hf, ht, hp]
      have h1 : pool.isEmpty = false := by
        cases pool with
        | nil => exact absurd rfl hne
        | cons a l => rfl
      simp [h1, noOtherMsg]
      intro x hx hxe
      exact absurd (hall x hx) hxe
    rw [hbody]
  · intro s h
    have h2 := congrArg String.data h
    rw [String.data_append] at h2
    simp [noOtherMsg] at h2
  · intro s h
    have h2 := congrArg String.data h
    rw [String.data_append] at h2
    simp [noOtherMsg] at h2

/-- Witness for C10: the pool holds exactly one track, the reference
itself. -/
theorem no_other_tracks_message_witness :
    (Env.client ⟨.ok (), fun _ => .ok [some ⟨0, 0, 0, 0, 0, 0, 0, 0⟩],
        fun _ => .ok ⟨"R", "Ref", ["X"]⟩, .ok [⟨"R", "Ref", ["X"]⟩], .ok [],
        fun _ _ => .ok [], fun _ => .ok []⟩ = .ok ()) ∧
    find_similar_tracks
      ⟨.ok (), fun _ => .ok [some ⟨0, 0, 0, 0, 0, 0, 0, 0⟩],
        fun _ => .ok ⟨"R", "Ref", ["X"]⟩, .ok [⟨"R", "Ref", ["X"]⟩], .ok [],
        fun _ _ => .ok [], fun _ => .ok []⟩
      "R" "liked" (3/20) = .ok noOtherMsg :=
  ⟨rfl,
   (no_other_tracks_message _ "R" "liked" (3/20) rfl ⟨0, 0, 0, 0, 0, 0, 0, 0⟩ rfl
     ⟨"R", "Ref", ["X"]⟩ rfl [⟨"R", "Ref", ["X"]⟩] (by simp [collectCandidatesSim]) (by simp)
     (fun u hu => by
       have hcl : cleanTrackId "R" = "R" := rfl
       simp only [List.mem_singleton] at hu
       rw [hu, hcl])).1⟩

/-- Evaluation lemma for the success path of `find_similar_tracks`:
under explicit results for each external call, the function returns the
formatted first ten entries of the sorted scored list. -/
lemma findSimilar_eval (env : Env) (tid source : String) (thr : ℚ)
    (hc : env.client = .ok ())
    (f : Features) (hf : env.audio_features [cleanTrackId tid] = .ok [some f])
    (t : Track) (ht : env.track (cleanTrackId tid) = .ok t)
    (pool : List Track) (hp : collectCandidatesSim env source = .ok pool)
    (hne : pool.isEmpty = false)
    (ids : List String)
    (hids : (pool.filter (fun u => decide (u.id ≠ cleanTrackId tid))).map Track.id = ids)
    (hidne : ids.isEmpty = false)
    (cf : List (Option Features)) (hcf : env.audio_features ids = .ok cf)
    (sl : List (ℚ × Track))
    (hsl : (similarLoop pool cf f thr).insertionSort scoreLE = sl)
    (hslne : sl.isEmpty = false) :
    find_similar_tracks env tid source thr = .ok (formatSimilar t (sl.take 10)) := by
  unfold find_similar_tracks findSimilarBody
  simp only [hc, hf, ht, hp, List.getD_cons_zero, hne, Bool.false_eq_true, if_false,
    hids, hidne, hcf, hsl, hslne]

/-- C2 failing input, evaluated: with the reference track (id "R")
first in the candidate pool and one other track "B" with identical
features, `candidate_ids` correctly drops "R" (first conjunct), but the
scoring loop indexes the unfiltered pool with the filtered list's
index, so the score computed from "B"'s feature vector is paired with
the reference track itself, which is then reported in the result —
contradicting both the exclusion of the reference track and the
score/track pairing. -/
theorem similar_misalignment_code_bug :
    (([⟨"R", "Ref", ["X"]⟩, ⟨"B", "Other", ["X"]⟩] : List Track).filter
        (fun u => u.id ≠ cleanTrackId "R")).map Track.id = ["B"] ∧
    similarLoop [⟨"R", "Ref", ["X"]⟩, ⟨"B", "Other", ["X"]⟩]
        [some ⟨0, 0, 0, 0, 0, 0, 0, 0⟩] ⟨0, 0, 0, 0, 0, 0, 0, 0⟩ (3/20)
      = [((0 : ℚ), ⟨"R", "Ref", ["X"]⟩)] ∧
    find_similar_tracks
      ⟨.ok (), fun ids => .ok (ids.map (fun _ => some ⟨0, 0, 0, 0, 0, 0, 0, 0⟩)),
        fun _ => .ok ⟨"R", "Ref", ["X"]⟩,
        .ok [⟨"R", "Ref", ["X"]⟩, ⟨"B", "Other", ["X"]⟩],
        .ok [], fun _ _ => .ok [], fun _ => .ok []⟩
      "R" "liked" (3/20)
      = .ok (formatSimilar ⟨"R", "Ref", ["X"]⟩ [((0 : ℚ), ⟨"R", "Ref", ["X"]⟩)]) := by
  have hcl : cleanTrackId "R" = "R" := rfl
  have hs : simScore ⟨0, 0, 0, 0, 0, 0, 0, 0⟩ ⟨0, 0, 0, 0, 0, 0, 0, 0⟩ = 0 := by
    simp [simScore, feature_keys, FeatKey.get, FeatKey.weight]
  have hle : ((0 : ℚ) ≤ 3/20) = True := by norm_num
  have hfilR : (([⟨"R", "Ref", ["X"]⟩, ⟨"B", "Other", ["X"]⟩] : List Track).filter
      (fun u => decide (u.id ≠ "R"))).map Track.id = ["B"] := by
    simp [List.filter]
  have hloop : similarLoop [⟨"R", "Ref", ["X"]⟩, ⟨"B", "Other", ["X"]⟩]
      [some ⟨0, 0, 0, 0, 0, 0, 0, 0⟩] ⟨0, 0, 0, 0, 0, 0, 0, 0⟩ (3/20)
      = [((0 : ℚ), ⟨"R", "Ref", ["X"]⟩)] := by
    simp only [similarLoop, List.enum, List.enumFrom, List.filterMap_cons,
      List.filterMap_nil, hs, hle, if_true]
    rfl
  refine ⟨by rw [hcl]; exact hfilR, hloop, ?_⟩
  have hcoll : collectCandidatesSim
      ⟨.ok (), fun ids => .ok (ids.map (fun _ => some ⟨0, 0, 0, 0, 0, 0, 0, 0⟩)),
        fun _ => .ok ⟨"R", "Ref", ["X"]⟩,
        .ok [⟨"R", "Ref", ["X"]⟩, ⟨"B", "Other", ["X"]⟩],
        .ok [], fun _ _ => .ok [], fun _ => .ok []⟩ "liked"
      = .ok [⟨"R", "Ref", ["X"]⟩, ⟨"B", "Other", ["X"]⟩] := by
    simp [collectCandidatesSim]
  exact findSimilar_eval _ "R" "liked" (3/20) rfl ⟨0, 0, 0, 0, 0, 0, 0, 0⟩ rfl
    ⟨"R", "Ref", ["X"]⟩ rfl
    [⟨"R", "Ref", ["X"]⟩, ⟨"B", "Other", ["X"]⟩] hcoll rfl
    ["B"] (by rw [hcl]; exact hfilR) rfl
    [some ⟨0, 0, 0, 0, 0, 0, 0, 0⟩] rfl
    [((0 : ℚ), ⟨"R", "Ref", ["X"]⟩)]
    (by rw [hloop]; simp [List.insertionSort, List.orderedInsert]) rfl

lemma filterMap_id_cons_some (t : Track) (l : List (Option Track)) :
    (some t :: l).filterMap id = t :: l.filterMap id := rfl

lemma filterMap_id_cons_none (l : List (Option Track)) :
    (none :: l).filterMap id = l.filterMap id := rfl

lemma foldl_playlistItemStep (pl : List (Option Track)) :
    ∀ (acc : List Track) (cnt : ℕ), cnt ≤ 100 →
      pl.foldl playlistItemStep (acc, cnt)
        = (acc ++ (pl.filterMap id).take (100 - cnt),
           min 100 (cnt + (pl.filterMap id).length)) := by
  induction pl with
  | nil =>
    intro acc cnt h
    simp only [List.foldl_nil, List.filterMap_nil, List.take_nil, List.append_nil,
      List.length_nil, Nat.add_zero, Prod.mk.injEq]
    exact ⟨by simp, by omega⟩
  | cons it rest ih =>
    intro acc cnt h
    cases it with
    | none =>
      rw [List.foldl_cons]
      have hstep : playlistItemStep (acc, cnt) none = (acc, cnt) := rfl
      rw [hstep, ih acc cnt h, filterMap_id_cons_none]
    | some t =>
      by_cases hcnt : cnt < 100
      · rw [List.foldl_cons]
        have hstep : playlistItemStep (acc, cnt) (some t) = (acc ++ [t], cnt + 1) := by
          simp [playlistItemStep, hcnt]
        rw [hstep, ih (acc ++ [t]) (cnt + 1) (by omega), filterMap_id_cons_some]
        obtain ⟨k, hk⟩ : ∃ k, 100 - cnt = k + 1 := ⟨99 - cnt, by omega⟩
        simp only [List.length_cons, Prod.mk.injEq]
        rw [hk, List.take_succ_cons]
        constructor
        · rw [List.append_assoc]
          simp only [List.singleton_append]
          have hkk : 100 - (cnt + 1) = k := by omega
          rw [hkk]
        · omega
      · have h100 : cnt = 100 := by omega
        subst h100
        rw [List.foldl_cons]
        have hstep : playlistItemStep (acc, 100) (some t) = (acc, 100) := by
          simp [playlistItemStep]
        rw [hstep, ih acc 100 le_rfl, filterMap_id_cons_some]
        simp only [List.length_cons, Nat.sub_self, List.take_zero, List.append_nil,
          Prod.mk.injEq]
        exact ⟨by simp, by omega⟩

lemma foldl_playlistOuter (plss : List (List (Option Track))) :
    ∀ (acc : List Track) (cnt : ℕ), cnt ≤ 100 →
      plss.foldl (fun st pl => if st.2 ≥ 100 then st else pl.foldl playlistItemStep st) (acc, cnt)
        = (acc ++ ((plss.map (List.filterMap id)).flatten).take (100 - cnt),
           min 100 (cnt + ((plss.map (List.filterMap id)).flatten).length)) := by
  induction plss with
  | nil =>
    intro acc cnt h
    simp only [List.foldl_nil, List.map_nil, List.flatten_nil, List.take_nil,
      List.append_nil, List.length_nil, Nat.add_zero, Prod.mk.injEq]
    exact ⟨by simp, by omega⟩
  | cons pl rest ih =>
    intro acc cnt h
    rw [List.foldl_cons]
    by_cases hb : cnt ≥ 100
    · have h100 : cnt = 100 := by omega
      subst h100
      simp only [ge_iff_le, le_refl, if_true]
      rw [ih acc 100 le_rfl]
      simp only [List.map_cons, List.flatten_cons, Nat.sub_self, List.take_zero,
        List.append_nil, List.length_append, Prod.mk.injEq]
      exact ⟨by simp, by omega⟩
    · simp only [ge_iff_le, if_neg (by omega : ¬(100 ≤ cnt))]
      rw [foldl_playlistItemStep pl acc cnt h,
        ih (acc ++ (pl.filterMap id).take (100 - cnt))
          (min 100 (cnt + (pl.filterMap id).length)) (min_le_left _ _)]
      simp only [List.map_cons, List.flatten_cons, Prod.mk.injEq]
      constructor
      · have hlen : 100 - min 100 (cnt + (pl.filterMap id).length)
            = 100 - cnt - (pl.filterMap id).length := by omega
        rw [hlen, List.take_append_eq_append_take, ← List.append_assoc]
      · simp only [List.length_append]
        omega

/-- C6: the candidate collection for `source="playlists"` (used verbatim
by both `find_similar_tracks` and `filter_tracks_by_features`) yields
exactly the first 100 non-null track payloads of the fetched playlists
in order — so it never exceeds 100 even when the combined playlist sizes
do, it stops accumulating mid-playlist once the count reaches 100, and a
null track payload is skipped without counting toward the cap; and under
successful fetches both entry points' collectors return exactly this
list. -/
theorem playlists_candidates_capped (plss : List (List (Option Track)))
    (env : Env) (pids : List String) (contents : String → List (Option Track))
    (hup : env.user_playlists = .ok pids)
    (hpt : ∀ pid, env.playlist_tracks pid 20 = .ok (contents pid)) :
    collectPlaylistTracks plss = ((plss.map (List.filterMap id)).flatten).take 100 ∧
    (collectPlaylistTracks plss).length ≤ 100 ∧
    collectCandidatesSim env "playlists" = .ok (collectPlaylistTracks (pids.map contents)) ∧
    collectCandidatesFilter env "playlists" = .ok (collectPlaylistTracks (pids.map contents)) := by
  have hpure : ∀ plss' : List (List (Option Track)),
      collectPlaylistTracks plss' = ((plss'.map (List.filterMap id)).flatten).take 100 := by
    intro plss'
    unfold collectPlaylistTracks
    rw [foldl_playlistOuter plss' [] 0 (by omega)]
    simp
  have hloop : ∀ (qids : List String) (st : List Track × ℕ),
      collectFromPlaylistsLoop env qids st
        = .ok ((qids.map contents).foldl
            (fun st pl => if st.2 ≥ 100 then st else pl.foldl playlistItemStep st) st) := by
    intro qids
    induction qids with
    | nil => intro st; rfl
    | cons pid rest ih =>
      intro st
      simp only [collectFromPlaylistsLoop, List.map_cons, List.foldl_cons]
      by_cases hb : st.2 ≥ 100
      · rw [if_pos hb, if_pos hb, ih]
      · rw [if_neg hb, if_neg hb, hpt pid]
        exact ih _
  have hcoll : collectFromPlaylists env = .ok (collectPlaylistTracks (pids.map contents)) := by
    unfold collectFromPlaylists
    rw [hup]
    show (match collectFromPlaylistsLoop env pids ([], 0) with
      | Except.error e => (Except.error e : Except String (List Track))
      | Except.ok st => Except.ok st.1) = _
    rw [hloop pids ([], 0)]
    rfl
  refine ⟨hpure plss, ?_, ?_, ?_⟩
  · rw [hpure plss]
    have := List.length_take 100 ((plss.map (List.filterMap id)).flatten)
    omega
  · simp only [collectCandidatesSim]
    norm_num
    exact hcoll
  · simp only [collectCandidatesFilter]
    norm_num
    exact hcoll

/-- Witness for C6: six playlists of twenty non-null tracks each (120
total) plus a null entry; the collector returns exactly 100 tracks. -/
theorem playlists_candidates_capped_witness :
    (Env.user_playlists
      ⟨.ok (), fun _ => .ok [], fun _ => .ok ⟨"", "", []⟩, .ok [],
        .ok ["p1", "p2", "p3", "p4", "p5", "p6"],
        fun _ _ => .ok (none :: List.replicate 20 (some ⟨"t", "T", ["A"]⟩)),
        fun _ => .ok []⟩ = .ok ["p1", "p2", "p3", "p4", "p5", "p6"]) ∧
    collectCandidatesSim
      ⟨.ok (), fun _ => .ok [], fun _ => .ok ⟨"", "", []⟩, .ok [],
        .ok ["p1", "p2", "p3", "p4", "p5", "p6"],
        fun _ _ => .ok (none :: List.replicate 20 (some ⟨"t", "T", ["A"]⟩)),
        fun _ => .ok []⟩ "playlists"
      = .ok (collectPlaylistTracks
          (["p1", "p2", "p3", "p4", "p5", "p6"].map
            (fun _ => none :: List.replicate 20 (some ⟨"t", "T", ["A"]⟩)))) ∧
    (collectPlaylistTracks
        (["p1", "p2", "p3", "p4", "p5", "p6"].map
          (fun _ => none :: List.replicate 20 (some ⟨"t", "T", ["A"]⟩)))).length ≤ 100 :=
  ⟨rfl,
   (playlists_candidates_capped
      (["p1", "p2", "p3", "p4", "p5", "p6"].map
        (fun _ => none :: List.replicate 20 (some ⟨"t", "T", ["A"]⟩)))
      _ ["p1", "p2", "p3", "p4", "p5", "p6"]
      (fun _ => none :: List.replicate 20 (some ⟨"t", "T", ["A"]⟩))
      rfl (fun _ => rfl)).2.2.1,
   (playlists_candidates_capped
      (["p1", "p2", "p3", "p4", "p5", "p6"].map
        (fun _ => none :: List.replicate 20 (some ⟨"t", "T", ["A"]⟩)))
      ⟨.ok (), fun _ => .ok [], fun _ => .ok ⟨"", "", []⟩, .ok [],
        .ok ["p1", "p2", "p3", "p4", "p5", "p6"],
        fun _ _ => .ok (none :: List.replicate 20 (some ⟨"t", "T", ["A"]⟩)),
        fun _ => .ok []⟩ ["p1", "p2", "p3", "p4", "p5", "p6"]
      (fun _ => none :: List.replicate 20 (some ⟨"t", "T", ["A"]⟩))
      rfl (fun _ => rfl)).2.1⟩

instance : IsTotal (Track × Features) danceGE :=
  ⟨fun a b => le_total b.2.danceability a.2.danceability⟩

instance : IsTrans (Track × Features) danceGE :=
  ⟨fun _ _ _ hab hbc => le_trans hbc hab⟩

lemma filter_orderedInsert (v : ℚ) (a : Track × Features) (l : List (Track × Features)) :
    (l.orderedInsert danceGE a).filter (fun x => decide (x.2.danceability = v))
      = if a.2.danceability = v
        then a :: l.filter (fun x => decide (x.2.danceability = v))
        else l.filter (fun x => decide (x.2.danceability = v)) := by
  induction l with
  | nil =>
    by_cases h : a.2.danceability = v <;> simp [List.orderedInsert, List.filter, h]
  | cons b l ih =>
    by_cases hr : danceGE a b
    · by_cases h : a.2.danceability = v <;>
        simp [List.orderedInsert, hr, List.filter, h]
    · have hlt : a.2.danceability < b.2.danceability := by
        have := not_le.mp (fun hle => hr hle)
        exact this
      by_cases h : a.2.danceability = v
      · have hbv : ¬(b.2.danceability = v) := by
          intro hb
          rw [h] at hlt
          rw [hb] at hlt
          exact lt_irrefl v hlt
        simp [List.orderedInsert, hr, List.filter, h, hbv, ih]
      · by_cases hb : b.2.danceability = v <;>
          simp [List.orderedInsert, hr, List.filter, h, hb, ih]

lemma filter_insertionSort (v : ℚ) (l : List (Track × Features)) :
    (l.insertionSort danceGE).filter (fun x => decide (x.2.danceability = v))
      = l.filter (fun x => decide (x.2.danceability = v)) := by
  induction l with
  | nil => rfl
  | cons a l ih =>
    simp only [List.insertionSort]
    rw [filter_orderedInsert, ih]
    by_cases h : a.2.danceability = v <;> simp [List.filter, h]

/-- C8: the ranking step of `filter_tracks_by_features` truncates the
sorted survivor list to the caller's limit (default 20); the sorted list
is ordered by non-increasing danceability, is a permutation of the
survivors, and for every danceability value the candidates carrying it
appear in their original collection order (stable ties). -/
theorem filter_results_sorted_by_danceability (l : List (Track × Features)) (limit : ℕ) :
    rankTracks l limit = (sortByDanceDesc l).take limit ∧
    (sortByDanceDesc l).Sorted danceGE ∧
    List.Perm (sortByDanceDesc l) l ∧
    (∀ v : ℚ, (sortByDanceDesc l).filter (fun x => decide (x.2.danceability = v))
        = l.filter (fun x => decide (x.2.danceability = v))) ∧
    filterLimitDefault = 20 :=
  ⟨rfl, List.sorted_insertionSort danceGE l, List.perm_insertionSort danceGE l,
   fun v => filter_insertionSort v l, rfl⟩

end SpotifyTools
